import Mathlib

/-!
Verification of the LaserControl repository against its specification.

The development shallowly embeds the behaviourally relevant parts of the
source (sweep engine, scope driver wait loop, live-plot ring buffer,
spectral-fit guesses, and the two-phase persistence layer) as executable
Lean definitions over rationals and lists, and proves the specified
properties about them.  Python float arrays are modelled as lists of
rationals; the filesystem is modelled as a map from paths to file
contents; the straight-line effectful code of the sweep worker is
modelled as an event trace.
-/

namespace LaserControl

/-! ### Live-plot ring buffer (gui/widgets/live_plot.py, update_plot)

The widget keeps two fixed-size channel buffers of capacity
roll_buffer_size.  On each tick it polls a chunk; an empty chunk leaves
the buffers untouched; a chunk longer than the capacity zeroes both
buffers in place; otherwise both buffers are rolled left by the chunk
length and the chunk is written over the tail slice. -/

/-- Model of numpy.roll with a negative shift: rotate the list left by n. -/
def npRoll (buf : List ℚ) (n : ℕ) : List ℚ := buf.drop n ++ buf.take n

/-- Model of the slice assignment buf[-n:] = chunk (n = chunk length). -/
def sliceSetTail (buf chunk : List ℚ) : List ℚ :=
  buf.take (buf.length - chunk.length) ++ chunk

/-- Model of LivePlotWidget.update_plot acting on the two channel buffers:
the in-range branch rolls and overwrites the tail, the lag branch zeroes
both buffers in place, and an empty chunk changes nothing.  The branch
condition uses the length of the channel-A chunk, as in the source. -/
def update_plot_buffers (cap : ℕ) (bufA bufB chunkA chunkB : List ℚ) :
    List ℚ × List ℚ :=
  if chunkA.length = 0 then (bufA, bufB)
  else if cap < chunkA.length then
    (bufA.map fun _ => 0, bufB.map fun _ => 0)
  else
    (sliceSetTail (npRoll bufA chunkA.length) chunkA,
     sliceSetTail (npRoll bufB chunkA.length) chunkB)

theorem sliceSetTail_npRoll (buf chunk : List ℚ) (h : chunk.length ≤ buf.length) :
    sliceSetTail (npRoll buf chunk.length) chunk = buf.drop chunk.length ++ chunk := by
  unfold sliceSetTail npRoll
  have hlen : (buf.drop chunk.length ++ buf.take chunk.length).length = buf.length := by
    simp [List.length_append, Nat.sub_add_cancel, h, Nat.min_eq_left, Nat.sub_add_min_cancel]
  have hd : (buf.drop chunk.length).length = buf.length - chunk.length := by
    simp
  rw [hlen, List.take_append_of_le_length (by omega)]
  rw [List.take_of_length_le (by omega)]

/-- C3: a chunk strictly longer than the capacity resets both channel
buffers to all zeros (lengths preserved), regardless of prior contents:
a lag event triggers a full reset, never a piecewise merge. -/
theorem update_plot_overflow_resets (cap : ℕ) (bufA bufB chunkA chunkB : List ℚ)
    (h : cap < chunkA.length) :
    ((update_plot_buffers cap bufA bufB chunkA chunkB).1.length = bufA.length ∧
      ∀ v ∈ (update_plot_buffers cap bufA bufB chunkA chunkB).1, v = 0) ∧
    ((update_plot_buffers cap bufA bufB chunkA chunkB).2.length = bufB.length ∧
      ∀ v ∈ (update_plot_buffers cap bufA bufB chunkA chunkB).2, v = 0) := by
  have hne : ¬ chunkA.length = 0 := by omega
  simp only [update_plot_buffers, if_neg hne, if_pos h]
  refine ⟨⟨by simp, ?_⟩, ⟨by simp, ?_⟩⟩ <;>
    · intro v hv
      simp only [List.mem_map] at hv
      obtain ⟨a, -, ha⟩ := hv
      exact ha.symm

/-- Closed witness for the overflow-reset theorem at a concrete state. -/
theorem update_plot_overflow_resets_witness :
    ((update_plot_buffers 2 [5, 6] [7, 8] [1, 2, 3] [4, 5, 6]).1.length = 2 ∧
      ∀ v ∈ (update_plot_buffers 2 [5, 6] [7, 8] [1, 2, 3] [4, 5, 6]).1, v = 0) ∧
    ((update_plot_buffers 2 [5, 6] [7, 8] [1, 2, 3] [4, 5, 6]).2.length = 2 ∧
      ∀ v ∈ (update_plot_buffers 2 [5, 6] [7, 8] [1, 2, 3] [4, 5, 6]).2, v = 0) := by
  have h := update_plot_overflow_resets 2 [5, 6] [7, 8] [1, 2, 3] [4, 5, 6] (by decide)
  simpa using h

/-- C4: a non-empty chunk no longer than the capacity keeps each buffer at
length exactly cap, discards the oldest samples by a left shift of the
chunk length, and appends the chunk at the tail in arrival order. -/
theorem update_plot_fifo (cap : ℕ) (bufA bufB chunkA chunkB : List ℚ)
    (hA : bufA.length = cap) (hB : bufB.length = cap)
    (hump : chunkB.length = chunkA.length)
    (hpos : 0 < chunkA.length) (hle : chunkA.length ≤ cap) :
    update_plot_buffers cap bufA bufB chunkA chunkB =
      (bufA.drop chunkA.length ++ chunkA, bufB.drop chunkA.length ++ chunkB) ∧
    (bufA.drop chunkA.length ++ chunkA).length = cap ∧
    (bufB.drop chunkA.length ++ chunkB).length = cap := by
  have hne : ¬ chunkA.length = 0 := by omega
  have hnlt : ¬ cap < chunkA.length := by omega
  refine ⟨?_, by simp [hA]; omega, by simp [hB, hump]; omega⟩
  simp only [update_plot_buffers, if_neg hne, if_neg hnlt]
  refine Prod.ext ?_ ?_
  · exact sliceSetTail_npRoll bufA chunkA (by omega)
  · have := sliceSetTail_npRoll bufB chunkB (by omega)
    simp only [hump] at this ⊢
    exact this

/-- Closed witness for the FIFO-update theorem at a concrete state. -/
theorem update_plot_fifo_witness :
    update_plot_buffers 4 [1, 2, 3, 4] [5, 6, 7, 8] [9, 10] [11, 12] =
      ([3, 4, 9, 10], [7, 8, 11, 12]) ∧
    ([3, 4, 9, 10] : List ℚ).length = 4 ∧ ([7, 8, 11, 12] : List ℚ).length = 4 := by
  have h := update_plot_fifo 4 [1, 2, 3, 4] [5, 6, 7, 8] [9, 10] [11, 12]
    (by decide) (by decide) (by decide) (by decide) (by decide)
  exact ⟨h.1, by decide, by decide⟩

/-! ### Sweep orchestrator mapping step (core/engine.py, SweepWorker.run)

The worker computes duration = |end - start| / speed + 0.5, captures a
block whose time axis is numpy.linspace(0, duration, num_samples), maps
each sample time t to start + speed * t, and keeps exactly the samples
whose wavelength lies in [start, end] via a boolean mask. -/

/-- Model of numpy.linspace(0, d, n): n evenly spaced points from 0 to d
inclusive (empty for n = 0, the single point 0 for n = 1). -/
def linspace (d : ℚ) (n : ℕ) : List ℚ :=
  if n ≤ 1 then List.replicate n 0
  else (List.range n).map fun (i : ℕ) => d * (i : ℚ) / ((n : ℚ) - 1)

/-- Capture duration computed by the worker: sweep span over speed plus a
fixed 0.5 s margin. -/
def captureDuration (start_nm end_nm speed : ℚ) : ℚ :=
  |end_nm - start_nm| / speed + 1 / 2

/-- The linear wavelength law applied to a time axis:
wavelength(t) = start + speed * t. -/
def sweepWavelengths (start_nm speed : ℚ) (taxis : List ℚ) : List ℚ :=
  taxis.map fun t => start_nm + speed * t

/-- The boolean mask (wavelengths >= start) & (wavelengths <= end) used to
keep only in-range samples. -/
def inSweepRange (start_nm end_nm w : ℚ) : Bool :=
  decide (start_nm ≤ w) && decide (w ≤ end_nm)

/-- Application of the mask: out-of-range samples are dropped, in-range
samples pass through unmodified (never clamped). -/
def clipToRange (start_nm end_nm : ℚ) (ws : List ℚ) : List ℚ :=
  ws.filter (inSweepRange start_nm end_nm)

/-- The wavelength sequence emitted by SweepWorker.run for a captured time
axis of n samples: map the linear law over linspace(0, duration, n), then
apply the range mask. -/
def run_mapped (start_nm end_nm speed : ℚ) (n : ℕ) : List ℚ :=
  clipToRange start_nm end_nm
    (sweepWavelengths start_nm speed (linspace (captureDuration start_nm end_nm speed) n))

theorem linspace_sorted (d : ℚ) (hd : 0 ≤ d) (n : ℕ) :
    (linspace d n).Sorted (· ≤ ·) := by
  unfold linspace
  split
  case isTrue h =>
    interval_cases n <;> simp
  case isFalse h =>
    have h1 : (1 : ℚ) < (n : ℚ) := by exact_mod_cast (by omega : 1 < n)
    have hn : (0 : ℚ) < (n : ℚ) - 1 := by linarith
    show ((List.range n).map fun (i : ℕ) => d * (i : ℚ) / ((n : ℚ) - 1)).Pairwise (· ≤ ·)
    rw [List.pairwise_map]
    refine (List.pairwise_lt_range n).imp ?_
    intro a b hab
    have hcast : (a : ℚ) ≤ (b : ℚ) := by exact_mod_cast hab.le
    gcongr

theorem captureDuration_nonneg (start_nm end_nm speed : ℚ) (hsp : 0 < speed) :
    0 ≤ captureDuration start_nm end_nm speed := by
  unfold captureDuration
  have h1 : 0 ≤ |end_nm - start_nm| / speed := div_nonneg (abs_nonneg _) hsp.le
  linarith

/-- C1: for a valid sweep (end above start, positive speed) and any
captured time-axis length, the emitted wavelength sequence is obtained by
the linear law and the range mask: it is monotonically non-decreasing,
every element lies within the sweep interval, it is a sublist of the
mapped wavelengths (samples are dropped, never clamped), and every mapped
wavelength inside the interval is kept. -/
theorem run_mapped_sorted_bounded (start_nm end_nm speed : ℚ) (n : ℕ)
    (hlt : start_nm < end_nm) (hsp : 0 < speed) :
    (run_mapped start_nm end_nm speed n).Sorted (· ≤ ·) ∧
    (∀ w ∈ run_mapped start_nm end_nm speed n, start_nm ≤ w ∧ w ≤ end_nm) ∧
    (run_mapped start_nm end_nm speed n).Sublist
      (sweepWavelengths start_nm speed (linspace (captureDuration start_nm end_nm speed) n)) ∧
    (∀ w ∈ sweepWavelengths start_nm speed (linspace (captureDuration start_nm end_nm speed) n),
      start_nm ≤ w → w ≤ end_nm → w ∈ run_mapped start_nm end_nm speed n) := by
  have hd : 0 ≤ captureDuration start_nm end_nm speed :=
    captureDuration_nonneg start_nm end_nm speed hsp
  have hsorted : (sweepWavelengths start_nm speed
      (linspace (captureDuration start_nm end_nm speed) n)).Pairwise (· ≤ ·) := by
    unfold sweepWavelengths
    rw [List.pairwise_map]
    refine (linspace_sorted _ hd n).imp ?_
    intro a b hab
    have : speed * a ≤ speed * b := mul_le_mul_of_nonneg_left hab hsp.le
    linarith
  refine ⟨?_, ?_, ?_, ?_⟩
  · exact List.Pairwise.sublist (List.filter_sublist _) hsorted
  · intro w hw
    unfold run_mapped clipToRange inSweepRange at hw
    simp only [List.mem_filter, Bool.and_eq_true, decide_eq_true_eq] at hw
    exact hw.2
  · exact List.filter_sublist _
  · intro w hw h1 h2
    unfold run_mapped clipToRange inSweepRange
    simp only [List.mem_filter, Bool.and_eq_true, decide_eq_true_eq]
    exact ⟨hw, h1, h2⟩

/-- Closed witness for the mapping theorem at a concrete valid sweep. -/
theorem run_mapped_sorted_bounded_witness :
    (0 : ℚ) < 1 ∧ (0 : ℚ) < 1 ∧
    ((run_mapped 0 1 1 3).Sorted (· ≤ ·) ∧
      (∀ w ∈ run_mapped 0 1 1 3, (0 : ℚ) ≤ w ∧ w ≤ 1) ∧
      (run_mapped 0 1 1 3).Sublist
        (sweepWavelengths 0 1 (linspace (captureDuration 0 1 1) 3)) ∧
      (∀ w ∈ sweepWavelengths 0 1 (linspace (captureDuration 0 1 1) 3),
        (0 : ℚ) ≤ w → w ≤ 1 → w ∈ run_mapped 0 1 1 3)) :=
  ⟨by decide, by decide, run_mapped_sorted_bounded 0 1 1 3 (by decide) (by decide)⟩

/-! ### Scope driver block capture (drivers/scope.py, PicoScopeDriver.capture_block)

After arming the device with RunBlock, capture_block enters
while ready == 0: IsReady(...); sleep(0.01) with no loop bound and no
timeout check.  The loop is modelled by the outcome of its first fuel
polls: ready k is the device answer to the k-th IsReady poll, and the
loop has exited within fuel polls exactly when some poll among the first
fuel returned true. -/

/-- Observation of the IsReady wait loop of capture_block for fuel polls:
the loop exits at the first poll that reports ready; if no poll among the
first fuel reports ready the loop is still spinning. -/
def capture_block_wait (ready : ℕ → Bool) (fuel : ℕ) : Option ℕ :=
  (List.range fuel).find? ready

/-- The wait loop never exits, however long it is observed. -/
def capture_block_hangs (ready : ℕ → Bool) : Prop :=
  ∀ fuel : ℕ, capture_block_wait ready fuel = none

theorem capture_block_wait_neverReady (fuel : ℕ) :
    capture_block_wait (fun _ => false) fuel = none := by
  simp [capture_block_wait]

/-- C2 counterexample: on a device whose trigger never arrives (every
IsReady poll answers false), the wait loop of capture_block spins forever;
in particular it does not terminate within the configured duration plus
any fixed margin, and no AcquisitionTimeout is ever produced. -/
theorem capture_block_no_timeout_cex : capture_block_hangs fun _ => false :=
  fun fuel => capture_block_wait_neverReady fuel

/-- C2 amended: capture_block has no internal timeout.  Its wait loop has
exited within a given number of polls exactly when some earlier IsReady
poll reported true, and on a device that never reports ready it spins
forever instead of failing. -/
theorem capture_block_wait_characterization :
    (∀ (ready : ℕ → Bool) (fuel : ℕ),
      (capture_block_wait ready fuel).isSome = true ↔ ∃ k < fuel, ready k = true) ∧
    capture_block_hangs fun _ => false := by
  constructor
  · intro ready fuel
    simp [capture_block_wait, List.find?_isSome, List.mem_range]
  · exact fun fuel => capture_block_wait_neverReady fuel

/-! ### Sweep worker event trace (core/engine.py, SweepWorker.run)

The happy path of SweepWorker.run is straight-line effectful code; it is
modelled as the ordered list of its externally visible actions.  The
laser sweep is started from a helper thread that sleeps 0.5 s and then
issues start_sweep, spawned just before the blocking capture call.  The
event vocabulary includes an armed-acknowledgment event so that its
absence from the traces is expressible. -/

/-- The staged autosave path built by DataManager.autosave_sweep: the
autosave directory plus sweep_autosave_ plus the timestamp plus .csv. -/
def autosave_sweepPath (ts : String) : String :=
  "data/autosaves/sweep_autosave_" ++ ts ++ ".csv"

inductive RunEv where
  | emitStatus : RunEv
  | setPower : RunEv
  | setSweepParams : RunEv
  | turnOnLaser : RunEv
  | sleepMs : ℕ → RunEv
  | spawnTriggerThread : RunEv
  | scopeArm : RunEv
  | scopeWaitReady : RunEv
  | startSweepCmd : RunEv
  | armAck : RunEv
  | joinTriggerThread : RunEv
  | stopSweepCmd : RunEv
  | turnOffLaser : RunEv
  | autosaveWrite : RunEv
  | emitDataReady : RunEv
  | emitFinishedSafe : RunEv
deriving DecidableEq

/-- The main worker thread of SweepWorker.run, in program order: configure
laser, warm up, spawn the trigger helper thread, run the blocking capture
(arm, then wait), join, stop, process, autosave, then notify. -/
def runTrace : List RunEv :=
  [RunEv.emitStatus, RunEv.setPower, RunEv.setSweepParams,
   RunEv.emitStatus, RunEv.turnOnLaser, RunEv.sleepMs 500,
   RunEv.emitStatus, RunEv.spawnTriggerThread,
   RunEv.scopeArm, RunEv.scopeWaitReady,
   RunEv.joinTriggerThread, RunEv.stopSweepCmd, RunEv.turnOffLaser,
   RunEv.emitStatus, RunEv.emitStatus, RunEv.autosaveWrite,
   RunEv.emitDataReady, RunEv.emitFinishedSafe]

/-- The helper thread spawned by the worker: sleep 0.5 s, then start the
laser sweep. -/
def triggerThreadTrace : List RunEv :=
  [RunEv.sleepMs 500, RunEv.startSweepCmd]

def isArmAck : RunEv → Bool
  | RunEv.armAck => true
  | _ => false

/-- All interleavings of two event lists (order within each list kept).
A sleep event carries no happens-before edge, so the events of the helper
thread may fall anywhere relative to the events the parent executes after
the spawn. -/
def mergesAux : ℕ → List RunEv → List RunEv → List (List RunEv)
  | 0, xs, ys => [xs ++ ys]
  | _ + 1, [], ys => [ys]
  | _ + 1, x :: xs, [] => [x :: xs]
  | n + 1, x :: xs, y :: ys =>
    (mergesAux n xs (y :: ys)).map (fun t => x :: t) ++
      (mergesAux n (x :: xs) ys).map (fun t => y :: t)

def merges (xs ys : List RunEv) : List (List RunEv) :=
  mergesAux (xs.length + ys.length) xs ys

/-- The events the parent thread executes after spawning the helper, up to
the end of the arming of the scope. -/
def mainAfterSpawn : List RunEv :=
  [RunEv.scopeArm, RunEv.scopeWaitReady]

/-- C8: the worker autosaves the mapped series before emitting either the
data-ready or the finished notification, and the staged file name is
injective in the timestamp. -/
theorem autosave_before_notification :
    RunEv.autosaveWrite ∈ runTrace ∧
    RunEv.emitDataReady ∈ runTrace ∧
    RunEv.emitFinishedSafe ∈ runTrace ∧
    runTrace.indexOf RunEv.autosaveWrite < runTrace.indexOf RunEv.emitDataReady ∧
    runTrace.indexOf RunEv.autosaveWrite < runTrace.indexOf RunEv.emitFinishedSafe ∧
    (∀ t1 t2 : String, autosave_sweepPath t1 = autosave_sweepPath t2 → t1 = t2) := by
  refine ⟨by decide, by decide, by decide, by decide, by decide, ?_⟩
  intro t1 t2 h
  unfold autosave_sweepPath at h
  have hd := congrArg String.data h
  simp only [String.data_append] at hd
  have h2 := List.append_cancel_right hd
  have h3 := List.append_cancel_left h2
  exact String.ext h3

/-- Closed witness exercising the autosave-ordering theorem, applying the
path-injectivity component at a concrete timestamp. -/
theorem autosave_before_notification_witness :
    ("20250101_000000" : String) = "20250101_000000" :=
  autosave_before_notification.2.2.2.2.2 "20250101_000000" "20250101_000000" rfl

/-- C9 counterexample: there is a legal interleaving of the capture thread
and the trigger helper thread in which the laser sweep starts before the
scope is armed (a fixed sleep creates no ordering edge), and no
armed-acknowledgment event occurs anywhere in the engine traces: the
digitizer is not provably armed before the sweep-start command. -/
theorem trigger_race_cex :
    [RunEv.sleepMs 500, RunEv.startSweepCmd, RunEv.scopeArm, RunEv.scopeWaitReady] ∈
      merges mainAfterSpawn triggerThreadTrace ∧
    runTrace.filter isArmAck = [] ∧
    triggerThreadTrace.filter isArmAck = [] := by decide

/-- C9 amended: the only synchronization between scope arming and the
sweep-start command is a fixed 0.5 s sleep in the helper thread; both the
arm-first and the sweep-first interleavings are possible, no armed
acknowledgment or arm-status poll exists, and when the trigger is missed
the capture wait loop spins forever instead of surfacing a distinguishable
error. -/
theorem trigger_sync_fixed_delay :
    ([RunEv.sleepMs 500, RunEv.startSweepCmd, RunEv.scopeArm, RunEv.scopeWaitReady] ∈
      merges mainAfterSpawn triggerThreadTrace) ∧
    ([RunEv.scopeArm, RunEv.scopeWaitReady, RunEv.sleepMs 500, RunEv.startSweepCmd] ∈
      merges mainAfterSpawn triggerThreadTrace) ∧
    triggerThreadTrace = [RunEv.sleepMs 500, RunEv.startSweepCmd] ∧
    runTrace.filter isArmAck = [] ∧
    triggerThreadTrace.filter isArmAck = [] ∧
    capture_block_hangs fun _ => false :=
  ⟨by decide, by decide, by decide, by decide, by decide,
    fun fuel => capture_block_wait_neverReady fuel⟩

/-! ### Two-phase persistence (utils/data_manager.py)

The filesystem is modelled as a map from paths to parsed two-column file
contents.  autosave_sweep creates the autosave directory and builds the
DataFrame outside its try block and only guards the to_csv write;
move_autosave raises a FileNotFoundError when the staged file is absent,
rewrites the content to the target path, and removes the staged file only
after the write; discard_autosave removes the staged file when present. -/

/-- Filesystem state: each path maps to the rows of the file stored there,
if any.  A row is one (wavelength, amplitude) sample. -/
def FileSys : Type := String → Option (List (ℚ × ℚ))

/-- Write (create or overwrite) a file. -/
def fsWrite (fs : FileSys) (p : String) (d : List (ℚ × ℚ)) : FileSys :=
  fun q => if q = p then some d else fs q

/-- Remove a file. -/
def fsRemove (fs : FileSys) (p : String) : FileSys :=
  fun q => if q = p then none else fs q

/-- The commit target path: caller directory, caller filename stem, then a
timestamp suffix and the .csv extension. -/
def targetPathOf (targetDir pfx ts : String) : String :=
  targetDir ++ "/" ++ pfx ++ "_" ++ ts ++ ".csv"

inductive PersistErr where
  | sourceMissing
  | writeFailed
deriving DecidableEq

/-- Model of DataManager.move_autosave.  The writeOk flag models whether
the to_csv write to the target succeeds.  A missing staged file raises
the distinguishable source-missing error before anything is written; on a
failed write nothing is removed; on success the content is written to the
target and only then is the staged original removed. -/
def move_autosave (writeOk : Bool) (fs : FileSys)
    (autosavePath targetDir pfx ts : String) : Except PersistErr (FileSys × String) :=
  match fs autosavePath with
  | none => Except.error PersistErr.sourceMissing
  | some df =>
    if writeOk then
      Except.ok
        (fsRemove (fsWrite fs (targetPathOf targetDir pfx ts) df) autosavePath,
          targetPathOf targetDir pfx ts)
    else Except.error PersistErr.writeFailed

/-- Model of DataManager.discard_autosave: remove the staged file if it
exists, otherwise do nothing. -/
def discard_autosave (fs : FileSys) (p : String) : FileSys :=
  if (fs p).isSome then fsRemove fs p else fs

/-- C5: a successful commit writes the staged two-column content to the
caller-chosen prefix-plus-timestamp target and removes the staged file
(which therefore no longer exists afterward); a failed target write does
not commit; and committing an already-discarded path fails with the
distinguishable source-missing error, which differs from a write error. -/
theorem move_autosave_spec (fs : FileSys) (p targetDir pfx ts : String)
    (df : List (ℚ × ℚ)) (hsrc : fs p = some df)
    (hne : p ≠ targetPathOf targetDir pfx ts) :
    (∃ fs2, move_autosave true fs p targetDir pfx ts =
        Except.ok (fs2, targetPathOf targetDir pfx ts) ∧
      fs2 p = none ∧ fs2 (targetPathOf targetDir pfx ts) = some df) ∧
    move_autosave false fs p targetDir pfx ts = Except.error PersistErr.writeFailed ∧
    move_autosave true (discard_autosave fs p) p targetDir pfx ts =
      Except.error PersistErr.sourceMissing ∧
    PersistErr.sourceMissing ≠ PersistErr.writeFailed := by
  refine ⟨⟨fsRemove (fsWrite fs (targetPathOf targetDir pfx ts) df) p, ?_, ?_, ?_⟩,
    ?_, ?_, by decide⟩
  · simp [move_autosave, hsrc]
  · simp [fsRemove]
  · have h2 : targetPathOf targetDir pfx ts ≠ p := Ne.symm hne
    simp [fsRemove, fsWrite, h2]
  · simp [move_autosave, hsrc]
  · have hdisc : discard_autosave fs p p = none := by
      simp [discard_autosave, hsrc, fsRemove]
    simp [move_autosave, hdisc]

/-- Concrete staged filesystem used by the commit witness. -/
def fsExample : FileSys :=
  fun q => if q = "data/autosaves/sweep_autosave_t0.csv" then some [(1, 2)] else none

/-- Closed witness for the commit theorem on a one-file staged store. -/
theorem move_autosave_spec_witness :
    (∃ fs2, move_autosave true fsExample "data/autosaves/sweep_autosave_t0.csv"
        "out" "run" "t1" = Except.ok (fs2, targetPathOf "out" "run" "t1") ∧
      fs2 "data/autosaves/sweep_autosave_t0.csv" = none ∧
      fs2 (targetPathOf "out" "run" "t1") = some [(1, 2)]) ∧
    move_autosave false fsExample "data/autosaves/sweep_autosave_t0.csv"
      "out" "run" "t1" = Except.error PersistErr.writeFailed ∧
    move_autosave true (discard_autosave fsExample "data/autosaves/sweep_autosave_t0.csv")
      "data/autosaves/sweep_autosave_t0.csv" "out" "run" "t1" =
      Except.error PersistErr.sourceMissing ∧
    PersistErr.sourceMissing ≠ PersistErr.writeFailed :=
  move_autosave_spec fsExample "data/autosaves/sweep_autosave_t0.csv" "out" "run" "t1"
    [(1, 2)] (by rfl) (by decide)

/-- Model of DataManager.autosave_sweep.  The mkdirOk flag models the
os.makedirs call made before the try block, and writeOk the guarded
to_csv write.  Building the DataFrame from arrays of unequal length
raises a ValueError, also before the try block; only a write failure is
caught and turned into the empty-string return. -/
def autosave_sweep (mkdirOk writeOk : Bool) (wavelengths signal : List ℚ)
    (ts : String) : Except String String :=
  if mkdirOk = false then Except.error "makedirs failed"
  else if wavelengths.length ≠ signal.length then
    Except.error "All arrays must be of the same length"
  else if writeOk then Except.ok (autosave_sweepPath ts)
  else Except.ok ""

/-- C10 counterexample: with arrays of unequal length the DataFrame
construction raises outside the try block, so autosave_sweep propagates an
exception instead of returning the empty string. -/
theorem autosave_sweep_unequal_cex :
    autosave_sweep true true [1, 2] [1, 2, 3] "t0" =
      Except.error "All arrays must be of the same length" := by
  rfl

/-- C10 amended: for equal-length arrays, autosave_sweep returns the
staged path when the write succeeds and the empty string when the write
fails (the exception is caught); but a directory-creation failure, or
unequal-length inputs, escape as exceptions because they occur before the
try block. -/
theorem autosave_sweep_amended (w s : List ℚ) (ts : String)
    (h : w.length = s.length) :
    autosave_sweep true true w s ts = Except.ok (autosave_sweepPath ts) ∧
    autosave_sweep true false w s ts = Except.ok "" ∧
    autosave_sweep false true w s ts = Except.error "makedirs failed" ∧
    autosave_sweep true true [1, 2] [1, 2, 3] ts =
      Except.error "All arrays must be of the same length" := by
  refine ⟨?_, ?_, by rfl, by rfl⟩ <;> simp [autosave_sweep, h]

/-- Closed witness for the amended autosave theorem at concrete arrays. -/
theorem autosave_sweep_amended_witness :
    autosave_sweep true true [1, 2] [3, 4] "t0" = Except.ok (autosave_sweepPath "t0") ∧
    autosave_sweep true false [1, 2] [3, 4] "t0" = Except.ok "" ∧
    autosave_sweep false true [1, 2] [3, 4] "t0" = Except.error "makedirs failed" ∧
    autosave_sweep true true [1, 2] [1, 2, 3] "t0" =
      Except.error "All arrays must be of the same length" :=
  autosave_sweep_amended [1, 2] [3, 4] "t0" (by decide)

/-! ### Spectral fitter (gui/widgets/sweep_plot.py, update_fit, and the
legacy LaserConrtolOLD.py calculate_q)

update_fit masks the loaded series to the selected region, returns early
when fewer than 10 points remain, and otherwise attempts a Lorentzian
plus constant fit whose initial guesses are computed from the masked
sub-arrays.  The numeric least-squares solver itself is an external
library; the embedding carries the masked data and the initial guesses up
to the point where the solver is invoked. -/

/-- Arithmetic mean, as numpy.mean. -/
def meanL (l : List ℚ) : ℚ := l.sum / l.length

/-- Maximum of a list, as numpy.max on a non-empty array. -/
def maxL : List ℚ → ℚ
  | [] => 0
  | x :: xs => xs.foldl max x

/-- Minimum of a list, as numpy.min on a non-empty array. -/
def minL : List ℚ → ℚ
  | [] => 0
  | x :: xs => xs.foldl min x

def argmaxAux : List ℚ → ℕ → ℕ → ℚ → ℕ
  | [], _, bi, _ => bi
  | x :: xs, i, bi, bv =>
    if bv < x then argmaxAux xs (i + 1) i x else argmaxAux xs (i + 1) bi bv

/-- Index of the first occurrence of the maximum, as numpy.argmax. -/
def argmaxIdx : List ℚ → ℕ
  | [] => 0
  | x :: xs => argmaxAux xs 1 0 x

def argminAux : List ℚ → ℕ → ℕ → ℚ → ℕ
  | [], _, bi, _ => bi
  | x :: xs, i, bi, bv =>
    if x < bv then argminAux xs (i + 1) i x else argminAux xs (i + 1) bi bv

/-- Index of the first occurrence of the minimum, as numpy.argmin. -/
def argminIdx : List ℚ → ℕ
  | [] => 0
  | x :: xs => argminAux xs 1 0 x

/-- The region mask (wavelengths >= min_x) & (wavelengths <= max_x). -/
def boolMask (minx maxx : ℚ) (ws : List ℚ) : List Bool :=
  ws.map fun w => decide (minx ≤ w) && decide (w ≤ maxx)

/-- Numpy boolean-mask indexing arr[mask]. -/
def applyMask (mask : List Bool) (xs : List ℚ) : List ℚ :=
  ((mask.zip xs).filter fun p => p.1).map fun p => p.2

/-- The initial guesses computed by update_fit on the masked sub-arrays:
amplitude max - min, center at the sample of maximal deviation from the
mean (peak or dip), constant background at the mean. -/
def makeGuesses (x_sub y_sub : List ℚ) : ℚ × ℚ × ℚ :=
  (maxL y_sub - minL y_sub,
   x_sub.getD (argmaxIdx (y_sub.map fun v => |v - meanL y_sub|)) 0,
   meanL y_sub)

inductive FitOutcome where
  | noData : FitOutcome
  | tooFewPoints : FitOutcome
  | fitAttempt (amp center sigma c : ℚ) (x_sub y_sub : List ℚ) : FitOutcome
deriving DecidableEq

/-- Is the outcome an invocation of the least-squares solver. -/
def attemptsFit : FitOutcome → Bool
  | FitOutcome.fitAttempt _ _ _ _ _ _ => true
  | _ => false

/-- Model of SweepPlotWidget.update_fit: no loaded data returns
immediately; a masked region with fewer than 10 points returns early
without fitting; otherwise the solver is invoked on the masked sub-arrays
with the computed initial guesses (sigma fixed at 0.01). -/
def update_fit (data : Option (List ℚ × List ℚ)) (minx maxx : ℚ) : FitOutcome :=
  match data with
  | none => FitOutcome.noData
  | some (ws, ys) =>
    let mask := boolMask minx maxx ws
    let x_sub := applyMask mask ws
    let y_sub := applyMask mask ys
    if x_sub.length < 10 then FitOutcome.tooFewPoints
    else
      FitOutcome.fitAttempt (makeGuesses x_sub y_sub).1 (makeGuesses x_sub y_sub).2.1
        (1 / 100) (makeGuesses x_sub y_sub).2.2 x_sub y_sub

/-- C6: whenever the selected region holds fewer than 10 samples, the
fitter yields the too-few-points outcome and never reaches the solver. -/
theorem update_fit_too_few_points (ws ys : List ℚ) (minx maxx : ℚ)
    (h : (applyMask (boolMask minx maxx ws) ws).length < 10) :
    update_fit (some (ws, ys)) minx maxx = FitOutcome.tooFewPoints ∧
    attemptsFit (update_fit (some (ws, ys)) minx maxx) = false := by
  have heq : update_fit (some (ws, ys)) minx maxx = FitOutcome.tooFewPoints := by
    simp only [update_fit]
    rw [if_pos h]
  exact ⟨heq, by rw [heq]; rfl⟩

/-- Closed witness: a three-point region yields the too-few outcome. -/
theorem update_fit_too_few_points_witness :
    update_fit (some ([1, 2, 3], [4, 5, 6])) 0 10 = FitOutcome.tooFewPoints ∧
    attemptsFit (update_fit (some ([1, 2, 3], [4, 5, 6])) 0 10) = false :=
  update_fit_too_few_points [1, 2, 3] [4, 5, 6] 0 10 (by decide)

inductive LegacyFit where
  | regionTooSmall : LegacyFit
  | fitAttempt (amp center sigma c : ℚ) : LegacyFit
deriving DecidableEq

/-- Model of the guess computation of the legacy calculate_q call site: a
region of fewer than two points is rejected; otherwise the solver is
invoked with amplitude abs(max - min), center at the minimum sample,
sigma 0.01, and constant background at the maximum. -/
def calculate_q (region_x region_y : List ℚ) : LegacyFit :=
  if region_x.length < 2 then LegacyFit.regionTooSmall
  else
    LegacyFit.fitAttempt |maxL region_y - minL region_y|
      (region_x.getD (argminIdx region_y) 0) (1 / 100) (maxL region_y)

/-- Amplitude guess as worded by the spec: max(y) - min(y). -/
def specAmplitudeGuess (y : List ℚ) : ℚ := maxL y - minL y

/-- Center guess as worded by the spec: the x value at the sample of
maximal absolute deviation from the mean. -/
def specCenterGuess (x y : List ℚ) : ℚ :=
  x.getD (argmaxIdx (y.map fun v => |v - meanL y|)) 0

/-- Background guess as worded by the spec: mean(y). -/
def specBackgroundGuess (y : List ℚ) : ℚ := meanL y

/-- Legacy center guess as worded by the spec: the x value at the minimum
of y. -/
def specLegacyCenterGuess (x y : List ℚ) : ℚ := x.getD (argminIdx y) 0

/-- Legacy background guess as worded by the spec: max(y). -/
def specLegacyBackgroundGuess (y : List ℚ) : ℚ := maxL y

theorem foldl_min_le_init (xs : List ℚ) (a : ℚ) : xs.foldl min a ≤ a := by
  induction xs generalizing a with
  | nil => exact le_refl a
  | cons x xs ih =>
    calc (x :: xs).foldl min a = xs.foldl min (min a x) := rfl
    _ ≤ min a x := ih (min a x)
    _ ≤ a := min_le_left a x

theorem init_le_foldl_max (xs : List ℚ) (a : ℚ) : a ≤ xs.foldl max a := by
  induction xs generalizing a with
  | nil => exact le_refl a
  | cons x xs ih =>
    calc a ≤ max a x := le_max_left a x
    _ ≤ xs.foldl max (max a x) := ih (max a x)
    _ = (x :: xs).foldl max a := rfl

theorem minL_le_maxL (l : List ℚ) (h : l ≠ []) : minL l ≤ maxL l := by
  match l with
  | [] => exact absurd rfl h
  | x :: xs =>
    calc minL (x :: xs) = xs.foldl min x := rfl
    _ ≤ x := foldl_min_le_init xs x
    _ ≤ xs.foldl max x := init_le_foldl_max xs x
    _ = maxL (x :: xs) := rfl

/-- C7: on a non-empty selected sub-range the initial guesses of the new
fitter are exactly amplitude max - min, center at the maximal absolute
deviation from the mean, background at the mean; the legacy call site
instead centers at the minimum of y and backgrounds at max(y), with the
same amplitude (its absolute value is redundant since max is at least
min). -/
theorem fit_initial_guesses (x y : List ℚ) (hy : y ≠ []) (hx : 2 ≤ x.length) :
    makeGuesses x y =
      (specAmplitudeGuess y, specCenterGuess x y, specBackgroundGuess y) ∧
    calculate_q x y =
      LegacyFit.fitAttempt (specAmplitudeGuess y) (specLegacyCenterGuess x y)
        (1 / 100) (specLegacyBackgroundGuess y) := by
  constructor
  · rfl
  · unfold calculate_q
    rw [if_neg (by omega)]
    have habs : |maxL y - minL y| = maxL y - minL y :=
      abs_of_nonneg (sub_nonneg.2 (minL_le_maxL y hy))
    rw [habs]
    rfl

/-- Closed witness for the initial-guess theorem at a concrete region. -/
theorem fit_initial_guesses_witness :
    (makeGuesses [1, 2] [3, 5] =
      (specAmplitudeGuess [3, 5], specCenterGuess [1, 2] [3, 5],
        specBackgroundGuess [3, 5]) ∧
    calculate_q [1, 2] [3, 5] =
      LegacyFit.fitAttempt (specAmplitudeGuess [3, 5])
        (specLegacyCenterGuess [1, 2] [3, 5]) (1 / 100)
        (specLegacyBackgroundGuess [3, 5])) :=
  fit_initial_guesses [1, 2] [3, 5] (by decide) (by decide)

end LaserControl
